import Mathlib

/-
  Verification development for the TCOM-500-SDR streaming ingestion pipeline
  (src/scripts/parser.py).  The source file contains two interleaved revisions
  separated by merge markers: an upstream revision (session table
  aircraft_sessions plus message log adsb_messages, buffer-based line framing
  in connect_and_listen) and a stashed revision (flights state table with
  sparse updates, flight_positions history, splitlines-based framing in main).
  Both revisions are embedded below; each definition names the source lines it
  embeds.  Strings are modelled as lists of characters; machine timestamps as
  Nat milliseconds and ISO timestamps as Int seconds.
-/

namespace SDR

abbrev Str := List Char

/-- Python str.strip(): drop whitespace from both ends. -/
def pstrip (s : Str) : Str :=
  ((s.dropWhile Char.isWhitespace).reverse.dropWhile Char.isWhitespace).reverse

/-- Python str.upper() on ASCII field text. -/
def pupper (s : Str) : Str := s.map Char.toUpper

/-- Python str.split(","): split at every comma; a string with no comma gives
a one-element list, and adjacent commas give empty fields. -/
def splitComma (s : Str) : List Str := s.splitOn ','

/-- One step of the buffer framer: prepend a non-delimiter character to the
first complete line when one exists, otherwise to the retained remainder. -/
def consLine (c : Char) : List Str × Str → List Str × Str
  | ([], buf) => ([], c :: buf)
  | (l :: ls, buf) => ((c :: l) :: ls, buf)

/-- Embedding of the delimiter scan of connect_and_listen
(src/scripts/parser.py lines 351 to 353): `while b"\n" in buffer: line, buffer =
buffer.split(b"\n", 1)`.  Returns the complete lines in order together with the
trailing partial record that stays in the buffer. -/
def splitNl : Str → List Str × Str
  | [] => ([], [])
  | c :: cs =>
    if c = '\n' then ([] :: (splitNl cs).1, (splitNl cs).2)
    else consLine c (splitNl cs)

/-- Python str.splitlines() restricted to the newline delimiter: every complete
line, plus the trailing segment when it is nonempty; no partial record is ever
retained. -/
def splitlines (s : Str) : List Str :=
  (splitNl s).1 ++ (if (splitNl s).2 = [] then [] else [(splitNl s).2])

/-- Session timeout (src/scripts/parser.py line 32): 20 minutes in seconds. -/
def SESSION_TIMEOUT_SEC : Int := 20 * 60

/-- Decoded record of the upstream parse_message (lines 102 to 113): the
positional FIELD_NAMES list of line 25, which has 20 names, so callsign sits at
index 8 and grounded at index 19; datel and timel copy date and time. -/
structure ParsedUp where
  mtype : Str
  ttype : Str
  sid : Str
  aid : Str
  hex : Str
  flight : Str
  date : Str
  time : Str
  callsign : Str
  alt : Str
  gspeed : Str
  heading : Str
  lat : Str
  lon : Str
  vrate : Str
  squawk : Str
  alert : Str
  emergency : Str
  spi : Str
  grounded : Str
  datel : Str
  timel : Str
deriving DecidableEq

/-- Upstream parse_message (src/scripts/parser.py lines 102 to 113):
`parts = line.strip().split(",")`, then `parts[i] if i < len(parts) else ""`
for each name of FIELD_NAMES in order. -/
def parse_message_up (line : Str) : ParsedUp :=
  let parts := splitComma (pstrip line)
  { mtype := parts.getD 0 []
    ttype := parts.getD 1 []
    sid := parts.getD 2 []
    aid := parts.getD 3 []
    hex := parts.getD 4 []
    flight := parts.getD 5 []
    date := parts.getD 6 []
    time := parts.getD 7 []
    callsign := parts.getD 8 []
    alt := parts.getD 9 []
    gspeed := parts.getD 10 []
    heading := parts.getD 11 []
    lat := parts.getD 12 []
    lon := parts.getD 13 []
    vrate := parts.getD 14 []
    squawk := parts.getD 15 []
    alert := parts.getD 16 []
    emergency := parts.getD 17 []
    spi := parts.getD 18 []
    grounded := parts.getD 19 []
    datel := parts.getD 6 []
    timel := parts.getD 7 [] }

/-- Decoded record of the stashed parse_message (lines 299 to 323); the
timestamp field is the wall clock in milliseconds taken at decode time. -/
structure ParsedSt where
  mtype : Str
  ttype : Str
  hex : Str
  timestamp : Nat
  flight : Str
  date : Str
  time : Str
  callsign : Str
  alt : Str
  gspeed : Str
  heading : Str
  lat : Str
  lon : Str
  grounded : Str
deriving DecidableEq

/-- Pad the field list to 22 entries with blanks
(`while len(parts) < 22: parts.append("")`, lines 305 to 306). -/
def padTo22 (parts : List Str) : List Str :=
  parts ++ List.replicate (22 - parts.length) []

/-- Stashed parse_message (src/scripts/parser.py lines 299 to 323): split the
raw record at commas, pad to 22 fields, and project the documented positions;
the hex field is stripped and uppercased.  The wall-clock milliseconds read by
`int(time.time()*1000)` are passed in as nowMs. -/
def parse_message_st (raw : Str) (nowMs : Nat) : ParsedSt :=
  let parts := padTo22 (splitComma (pstrip raw))
  { mtype := parts.getD 0 []
    ttype := parts.getD 1 []
    hex := pupper (pstrip (parts.getD 4 []))
    timestamp := nowMs
    flight := parts.getD 5 []
    date := parts.getD 6 []
    time := parts.getD 7 []
    callsign := parts.getD 10 []
    alt := parts.getD 11 []
    gspeed := parts.getD 12 []
    heading := parts.getD 13 []
    lat := parts.getD 14 []
    lon := parts.getD 15 []
    grounded := parts.getD 21 [] }

/-- Row of the aircraft_sessions table (lines 45 to 52 of parser.py). -/
structure SessionRow where
  sessionId : Nat
  callsign : Str
  icaoHex : Str
  firstSeen : Int
  lastSeen : Int
deriving DecidableEq

/-- Row of the adsb_messages table (lines 70 to 93). -/
structure MessageRow where
  sessionId : Nat
  ts : Int
  mtype : Str
  ttype : Str
  flight : Str
  date : Str
  time : Str
  datel : Str
  timel : Str
  callsign : Str
  alt : Str
  gspeed : Str
  heading : Str
  lat : Str
  lon : Str
  squawk : Str
  alert : Str
  grounded : Str
deriving DecidableEq

/-- The persistent and in-memory state touched by the session pipeline: the
two tables, the active_sessions dictionary of line 35 (modelled as an
association list from callsign to session id and last-seen timestamp), and the
AUTOINCREMENT counter behind lastrowid. -/
structure DB where
  sessions : List SessionRow
  messages : List MessageRow
  activeSessions : List (Str × Nat × Int)
  nextSessionId : Nat
deriving DecidableEq

/-- One committed store mutation; each `conn.commit()` in the source closes a
group of these, so a list of groups records the transaction structure. -/
inductive Mutation
  | sessionInsert (row : SessionRow)
  | sessionTouch (sessionId : Nat) (lastSeen : Int)
  | messageInsert (row : MessageRow)
deriving DecidableEq

def Mutation.isSession : Mutation → Bool
  | .sessionInsert _ => true
  | .sessionTouch _ _ => true
  | .messageInsert _ => false

def Mutation.isMessageInsert : Mutation → Bool
  | .messageInsert _ => true
  | _ => false

/-- Dictionary read `active_sessions[callsign]`. -/
def lookupSession : List (Str × Nat × Int) → Str → Option (Nat × Int)
  | [], _ => none
  | (c, v) :: rest, cs => if c = cs then some v else lookupSession rest cs

/-- Dictionary write `active_sessions[callsign] = (sid, ts)`. -/
def setActive : List (Str × Nat × Int) → Str → Nat × Int → List (Str × Nat × Int)
  | [], cs, v => [(cs, v)]
  | (c, w) :: rest, cs, v =>
    if c = cs then (cs, v) :: rest else (c, w) :: setActive rest cs v

/-- create_new_session (src/scripts/parser.py lines 146 to 160): insert an
aircraft_sessions row whose id is the next AUTOINCREMENT value, commit on its
own connection, and record the session in active_sessions. -/
def create_new_session (callsign icaoHex : Str) (nowIso : Int) (db : DB) :
    Nat × DB × List (List Mutation) :=
  let sid := db.nextSessionId
  let row : SessionRow := ⟨sid, callsign, icaoHex, nowIso, nowIso⟩
  (sid,
   { db with
      sessions := db.sessions ++ [row]
      nextSessionId := sid + 1
      activeSessions := setActive db.activeSessions callsign (sid, nowIso) },
   [[.sessionInsert row]])

/-- update_session_last_seen (lines 163 to 172): set last_seen on the matching
aircraft_sessions row; committed on its own connection. -/
def update_session_last_seen (sid : Nat) (nowIso : Int) (db : DB) :
    DB × List (List Mutation) :=
  ({ db with
      sessions := db.sessions.map
        (fun r => if r.sessionId = sid then { r with lastSeen := nowIso } else r) },
   [[.sessionTouch sid nowIso]])

/-- get_or_create_session (src/scripts/parser.py lines 119 to 143).  The two
record fields it reads, `parsed.get("callsign", "")` and `parsed.get("hex",
"")`, are taken as arguments so that either decoded record shape can drive it.
A blank stripped callsign skips session grouping; an open session whose gap
exceeds SESSION_TIMEOUT_SEC is replaced by a new one; otherwise the open
session is extended and its last_seen updated. -/
def get_or_create_session (callsignField hexField : Str) (nowIso : Int)
    (db : DB) : Option Nat × DB × List (List Mutation) :=
  let callsign := pstrip callsignField
  let icao := pupper (pstrip hexField)
  if callsign = [] then (none, db, [])
  else
    match lookupSession db.activeSessions callsign with
    | some (sid, lastSeen) =>
      if nowIso - lastSeen > SESSION_TIMEOUT_SEC then
        let r := create_new_session callsign icao nowIso db
        (some r.1, r.2.1, r.2.2)
      else
        let r := update_session_last_seen sid nowIso db
        (some sid,
         { r.1 with activeSessions := setActive r.1.activeSessions callsign (sid, nowIso) },
         r.2)
    | none =>
      let r := create_new_session callsign icao nowIso db
      (some r.1, r.2.1, r.2.2)

/-- The adsb_messages row built by the upstream insert (lines 204 to 228). -/
def mkMessageRow (sid : Nat) (tsIso : Int) (p : ParsedUp) : MessageRow :=
  ⟨sid, tsIso, p.mtype, p.ttype, p.flight, p.date, p.time, p.datel, p.timel,
   p.callsign, p.alt, p.gspeed, p.heading, p.lat, p.lon, p.squawk, p.alert,
   p.grounded⟩

/-- Upstream insert_message (src/scripts/parser.py lines 178 to 228 and 284 to
285): drop records whose flight field is 111111 with a blank stripped
callsign; compute the session; return with no store write when no session is
assigned; otherwise insert the adsb_messages row and commit.  The timestamp
built from the date and time fields (with a wall-clock fallback) is passed in
as tsIso.  The result pairs the new state with the committed transaction
groups. -/
def insert_message_up (p : ParsedUp) (tsIso : Int) (db : DB) :
    DB × List (List Mutation) :=
  if p.flight = "111111".data ∧ pstrip p.callsign = [] then (db, [])
  else
    match get_or_create_session p.callsign p.hex tsIso db with
    | (none, db1, cs) => (db1, cs)
    | (some sid, db1, cs) =>
      let row := mkMessageRow sid tsIso p
      ({ db1 with messages := db1.messages ++ [row] },
       cs ++ [[.messageInsert row]])

/-- Row of the flights state table of the stashed revision (lines 54 to 66):
one row per hex code, sparse text columns, plus creation metadata. -/
structure FlightRow where
  hex : Str
  timestamp : Str
  callsign : Str
  alt : Str
  gspeed : Str
  heading : Str
  lat : Str
  lon : Str
  grounded : Str
  createdAt : Str
deriving DecidableEq

/-- A value taken from the decoded record by the update loop: the timestamp is
a Python int, every other field is text.  The source test
`val not in ("", None)` is false for every int. -/
inductive UVal
  | vint (n : Nat)
  | vstr (s : Str)
deriving DecidableEq

/-- The `val in ("", None)` test of line 245 specialised to the values the
update map can hold: an int is never blank, a string is blank when empty
(parse_message never yields None for these keys). -/
def uvalBlank : UVal → Bool
  | .vint _ => false
  | .vstr s => decide (s = [])

/-- SQLite text rendering of a bound value: ints are stored as their decimal
text in the TEXT columns of the flights table. -/
def uvalToStr : UVal → Str
  | .vint n => (Nat.repr n).data
  | .vstr s => s

/-- The column names that appear in the dynamically built
`UPDATE flights SET col = ?` statement (lines 231 to 251). -/
inductive Col
  | ctimestamp
  | ccallsign
  | calt
  | cgspeed
  | cheading
  | clat
  | clon
  | cgrounded
deriving DecidableEq

/-- The update_map dictionary (src/scripts/parser.py lines 231 to 240) in
declaration order. -/
def update_map (f : ParsedSt) : List (Col × UVal) :=
  [(.ctimestamp, .vint f.timestamp),
   (.ccallsign, .vstr f.callsign),
   (.calt, .vstr f.alt),
   (.cgspeed, .vstr f.gspeed),
   (.cheading, .vstr f.heading),
   (.clat, .vstr f.lat),
   (.clon, .vstr f.lon),
   (.cgrounded, .vstr f.grounded)]

/-- The filtering loop of lines 242 to 248: keep exactly the pairs whose value
is neither the empty string nor None. -/
def buildUpdates (f : ParsedSt) : List (Col × UVal) :=
  (update_map f).filter (fun kv => !uvalBlank kv.2)

/-- One `col = ?` assignment of the built UPDATE statement applied to the
matched row. -/
def applyAssign (row : FlightRow) (kv : Col × UVal) : FlightRow :=
  match kv.1 with
  | .ctimestamp => { row with timestamp := uvalToStr kv.2 }
  | .ccallsign => { row with callsign := uvalToStr kv.2 }
  | .calt => { row with alt := uvalToStr kv.2 }
  | .cgspeed => { row with gspeed := uvalToStr kv.2 }
  | .cheading => { row with heading := uvalToStr kv.2 }
  | .clat => { row with lat := uvalToStr kv.2 }
  | .clon => { row with lon := uvalToStr kv.2 }
  | .cgrounded => { row with grounded := uvalToStr kv.2 }

/-- The whole dynamically built UPDATE of lines 250 to 253 executed against the
existing flights row: every kept assignment applied in declaration order. -/
def update_flight_fields (f : ParsedSt) (row : FlightRow) : FlightRow :=
  (buildUpdates f).foldl applyAssign row

/-- Row of the flight_positions history table (lines 263 to 281). -/
structure PositionRow where
  hex : Str
  timestamp : Nat
  lat : Str
  lon : Str
  alt : Str
  heading : Str
  gspeed : Str
deriving DecidableEq

/-- The position-history insert of src/scripts/parser.py lines 255 to 281:
append one flight_positions row exactly when the decoded lat and lon are both
non-blank; nowMs is the wall clock read by `int(time.time()*1000)`. -/
def insertPositions (f : ParsedSt) (nowMs : Nat) (log : List PositionRow) :
    List PositionRow :=
  if f.lat ≠ [] ∧ f.lon ≠ [] then
    log ++ [⟨f.hex, nowMs, f.lat, f.lon, f.alt, f.heading, f.gspeed⟩]
  else log

/-- insert_message resolved with the stashed body (lines 178 to 197 shared
prefix, then 230 to 282): the same 111111 filter and session gate, after which
the existing flights row is sparsely updated and the position history extended.
The stashed block names the current row through flight_id; the matched row and
the position log are passed explicitly. -/
def insert_message_st (p : ParsedSt) (tsIso : Int) (nowMs : Nat) (db : DB)
    (row : FlightRow) (log : List PositionRow) :
    DB × FlightRow × List PositionRow :=
  if p.flight = "111111".data ∧ pstrip p.callsign = [] then (db, row, log)
  else
    match get_or_create_session p.callsign p.hex tsIso db with
    | (none, db1, _) => (db1, row, log)
    | (some _, db1, _) =>
      (db1, update_flight_fields p row, insertPositions p nowMs log)

/-- Row of the smessages log written by the stashed main loop
(lines 382 to 400). -/
structure SMessageRow where
  flightId : Nat
  hex : Str
  date : Str
  time : Str
  callsign : Str
  alt : Str
  gspeed : Str
  heading : Str
  lat : Str
  lon : Str
  grounded : Str
  createdAt : Int
deriving DecidableEq

/-- Store touched by the stashed main loop: flights rows keyed by surrogate id,
the smessages log, and the AUTOINCREMENT counter. -/
structure FlightsStore where
  flights : List (Nat × FlightRow)
  smessages : List SMessageRow
  nextFlightId : Nat
deriving DecidableEq

/-- A fresh flights row holding only the key: hex unique, other columns blank
(per the flights schema of lines 54 to 66). -/
def blankFlightRow (hexcode : Str) : FlightRow :=
  ⟨hexcode, [], [], [], [], [], [], [], [], []⟩

/-- Modelled from the spec: get_or_create_flight is called by the stashed main
loop (line 375) but is not defined anywhere in the sources.  Spec section 4.5
says upsertAircraft "creates the AircraftState row if absent", and section 3
says the row is created on first sighting of an identifier and keyed by it;
so this returns the id of the flights row whose hex equals the grouping key,
inserting a fresh row first when none exists. -/
def get_or_create_flight (store : FlightsStore) (hexcode : Str) :
    Nat × FlightsStore :=
  match store.flights.find? (fun fr => decide (fr.2.hex = hexcode)) with
  | some fr => (fr.1, store)
  | none =>
    let fid := store.nextFlightId
    (fid,
     { store with
        flights := store.flights ++ [(fid, blankFlightRow hexcode)]
        nextFlightId := fid + 1 })

/-- Modelled from the spec: update_flight_fields is called by the stashed main
loop (line 378) but not defined in the sources; its evident body is the sparse
update block that the stashed insert_message carries at lines 230 to 253, so
the update of that block is applied to the flights row with the given id. -/
def update_flight_fields_store (store : FlightsStore) (fid : Nat)
    (f : ParsedSt) : FlightsStore :=
  { store with
      flights := store.flights.map
        (fun fr => if fr.1 = fid then (fr.1, update_flight_fields f fr.2) else fr) }

/-- The smessages row inserted at lines 382 to 400; createdAt is the
`datetime.utcnow().isoformat()` wall clock, passed in as seconds. -/
def mkSMessageRow (fid : Nat) (f : ParsedSt) (createdAt : Int) : SMessageRow :=
  ⟨fid, f.hex, f.date, f.time, f.callsign, f.alt, f.gspeed, f.heading,
   f.lat, f.lon, f.grounded, createdAt⟩

/-- Per-record body of the stashed main loop (src/scripts/parser.py lines 361
to 402): skip records that strip to nothing, decode, drop every record whose
mtype differs from MSG, otherwise upsert the flights row for the hex grouping
key, apply the sparse field update, and append the smessages row. -/
def mainProcessLine (store : FlightsStore) (raw : Str) (nowMs : Nat)
    (createdAt : Int) : FlightsStore :=
  if pstrip raw = [] then store
  else
    let fields := parse_message_st raw nowMs
    if fields.mtype ≠ "MSG".data then store
    else
      let hexcode := fields.hex
      let r := get_or_create_flight store hexcode
      let s2 := update_flight_fields_store r.2 r.1 fields
      { s2 with smessages := s2.smessages ++ [mkSMessageRow r.1 fields createdAt] }

/-- The line production of the stashed main loop (lines 361 to 363): each
received chunk is decoded and split with splitlines on its own, whitespace-only
lines dropped; nothing is carried from one chunk to the next. -/
def mainFramerLines (chunks : List Str) : List Str :=
  chunks.flatMap (fun d => (splitlines d).filter (fun l => !decide (pstrip l = [])))

/-- Decoded records the stashed main loop obtains from a chunk sequence. -/
def mainFramerRecords (chunks : List Str) (nowMs : Nat) : List ParsedSt :=
  (mainFramerLines chunks).map (fun l => parse_message_st l nowMs)

/-- Feeding one chunk to the upstream framer (lines 351 to 353): append the
chunk to the retained buffer and emit every complete line. -/
def feedChunk (buf chunk : Str) : List Str × Str :=
  splitNl (buf ++ chunk)

/-- Feeding a chunk sequence to the upstream framer in order, accumulating the
emitted lines and threading the retained partial record. -/
def feedChunks (buf : Str) : List Str → List Str × Str
  | [] => ([], buf)
  | c :: cs =>
    let r := feedChunk buf c
    let s := feedChunks r.2 cs
    (r.1 ++ s.1, s.2)

/-- Cause of one termination of an upstream connection attempt
(lines 335 to 349 and 405 to 407): the connect call raising, the recv call
raising mid-stream, or recv returning no data because the peer closed. -/
inductive ConnEvent
  | connectError (msg : Str)
  | recvError (msg : Str)
  | peerClosed
deriving DecidableEq

/-- Observable effect of one iteration of the outer while-True loop of
connect_and_listen: the log lines printed, the seconds slept before the next
attempt, and whether the loop goes around again. -/
structure IterResult where
  logs : List Str
  sleepSec : Nat
  retries : Bool
deriving DecidableEq

def connectingLog : Str := "Connecting to 127.0.0.1:30003 ...".data

def connectedLog : Str := "Connected. Listening...".data

def disconnectLog : Str := "Server disconnected. Reconnecting...".data

def failLog (m : Str) : Str :=
  "Connection failed (".data ++ m ++ "). Retrying in 3 seconds...".data

/-- Embedding of one iteration of the outer loop of connect_and_listen
(src/scripts/parser.py lines 335 to 349 and 405 to 407).  An exception from
connect or recv lands in the except clause, which logs and sleeps 3 seconds;
recv returning no data prints the disconnect line and breaks the inner loop
only, so the outer loop reconnects at once and no sleep runs.  Every branch
reaches the top of the outer while-True again. -/
def connect_and_listen_iter : ConnEvent → IterResult
  | .connectError m => ⟨[connectingLog, failLog m], 3, true⟩
  | .recvError m => ⟨[connectingLog, connectedLog, failLog m], 3, true⟩
  | .peerClosed => ⟨[connectingLog, connectedLog, disconnectLog], 0, true⟩

/-- Whether connect_and_listen returns normally after a finite sequence of
connection terminations: true only if some iteration fails to loop again. -/
def connect_and_listen_returns : List ConnEvent → Bool
  | [] => false
  | e :: es =>
    if (connect_and_listen_iter e).retries then connect_and_listen_returns es
    else true

/-- Empty store before any record arrives; AUTOINCREMENT row ids start at 1. -/
def emptyDB : DB := ⟨[], [], [], 1⟩

/-- Store holding one open session for UAL123 last seen at time 0. -/
def dbW : DB := ⟨[⟨1, "UAL123".data, "A1B2C3".data, 0, 0⟩], [],
  [("UAL123".data, 1, 0)], 2⟩

/-- A decoded record of a non-MSG message type with a non-blank callsign. -/
def rawC5 : Str := "STA,1,1,1,a1b2c3,FL1,2024/01/01,00:00:00,UAL123,1000".data

/-- The 22-field example record of the spec, as raw text. -/
def rawC5b : Str :=
  "MSG,3,1,1,A1B2C3,1,2024/01/01,00:00:00,2024/01/01,00:00:00,UAL123,35000,450,90,40.1,-75.2,,,,,,0".data

def storeEmpty : FlightsStore := ⟨[], [], 1⟩

/-- A short MSG record whose upstream callsign field, position 8, is set. -/
def rawC6 : Str := "MSG,3,1,1,A1B2C3,FL123,2024/01/01,00:00:00,UAL123".data

/-- The example record with a lowercase aircraft identifier. -/
def rawC7 : Str :=
  "MSG,3,1,1,a1b2c3,1,2024/01/01,00:00:00,2024/01/01,00:00:00,UAL123,35000,450,90,40.1,-75.2,,,,,,0".data

/-- The fields of the example record of the spec, lowercase identifier. -/
def fs7 : List Str :=
  ["MSG".data, "3".data, "1".data, "1".data, "a1b2c3".data, "1".data,
   "2024/01/01".data, "00:00:00".data, "2024/01/01".data, "00:00:00".data,
   "UAL123".data, "35000".data, "450".data, "90".data, "40.1".data,
   "-75.2".data, [], [], [], [], [], "0".data]

/-- The example record with the callsign field at position 10 blanked and a
valid position present. -/
def raw8 : Str :=
  "MSG,3,1,1,A1B2C3,1,2024/01/01,00:00:00,2024/01/01,00:00:00,,35000,450,90,40.1,-75.2,,,,,,0".data

/-- The callsign and identifier used by the concrete session inputs. -/
def csUAL : Str := "UAL123".data

def hexUAL : Str := "A1B2C3".data

/-- A record whose flight field is 111111 and whose callsign field, position 8
for the upstream decoder, is a single space. -/
def raw10 : Str := "MSG,3,1,1,A1B2C3,111111,2024/01/01,00:00:00, ".data

lemma splitNl_cons_nl (cs : Str) :
    splitNl ('\n' :: cs) = ([] :: (splitNl cs).1, (splitNl cs).2) := by
  simp [splitNl]

lemma splitNl_cons_ne (c : Char) (cs : Str) (hc : c ≠ '\n') :
    splitNl (c :: cs) = consLine c (splitNl cs) := by
  simp [splitNl, hc]

lemma splitNl_append (x y : Str) :
    splitNl (x ++ y) =
      ((splitNl x).1 ++ (splitNl ((splitNl x).2 ++ y)).1,
       (splitNl ((splitNl x).2 ++ y)).2) := by
  induction x with
  | nil => simp [splitNl]
  | cons c x ih =>
    rcases hB : splitNl x with ⟨bl, bb⟩
    rw [hB] at ih
    by_cases hc : c = '\n'
    · subst hc
      rw [List.cons_append, splitNl_cons_nl, splitNl_cons_nl, ih, hB]
      simp
    · rw [List.cons_append, splitNl_cons_ne c _ hc, splitNl_cons_ne c _ hc, ih, hB]
      cases bl with
      | nil =>
        rcases hC : splitNl (bb ++ y) with ⟨cl, cb⟩
        simp only [List.nil_append, hC, consLine]
        rw [List.cons_append, splitNl_cons_ne c _ hc, hC]
        cases cl <;> simp [consLine]
      | cons l ls =>
        simp [consLine]

/-- C1: decoding a record and applying the sparse flights update overwrites
exactly the columns for which the decoded record carries a non-blank value;
every column whose incoming value is blank keeps its prior stored value, and
the key and creation columns are never touched.  The timestamp value is a
Python int and is therefore always non-blank. -/
theorem sparse_update_law (f : ParsedSt) (row : FlightRow) :
    (update_flight_fields f row).hex = row.hex ∧
    (update_flight_fields f row).createdAt = row.createdAt ∧
    (update_flight_fields f row).timestamp = (Nat.repr f.timestamp).data ∧
    (update_flight_fields f row).callsign =
      (if f.callsign = [] then row.callsign else f.callsign) ∧
    (update_flight_fields f row).alt = (if f.alt = [] then row.alt else f.alt) ∧
    (update_flight_fields f row).gspeed =
      (if f.gspeed = [] then row.gspeed else f.gspeed) ∧
    (update_flight_fields f row).heading =
      (if f.heading = [] then row.heading else f.heading) ∧
    (update_flight_fields f row).lat = (if f.lat = [] then row.lat else f.lat) ∧
    (update_flight_fields f row).lon = (if f.lon = [] then row.lon else f.lon) ∧
    (update_flight_fields f row).grounded =
      (if f.grounded = [] then row.grounded else f.grounded) := by
  obtain ⟨mt, tt, hx, ts, fl, da, ti, cs, al, gs, hd, la, lo, gr⟩ := f
  by_cases h1 : cs = [] <;> by_cases h2 : al = [] <;> by_cases h3 : gs = [] <;>
    by_cases h4 : hd = [] <;> by_cases h5 : la = [] <;> by_cases h6 : lo = [] <;>
    by_cases h7 : gr = [] <;>
    simp [update_flight_fields, buildUpdates, update_map, uvalBlank, uvalToStr,
      applyAssign, h1, h2, h3, h4, h5, h6, h7]

/-- C2 (amended): the buffer-based framer of connect_and_listen is insensitive
to chunk boundaries: feeding two chunks in order emits the same complete lines,
decodes to the same record sequence, and retains the same trailing partial
record as feeding their concatenation at once. -/
theorem framer_chunk_invariant (buf c1 c2 : Str) :
    (feedChunks buf [c1, c2]).1 = (feedChunks buf [c1 ++ c2]).1 ∧
    (feedChunks buf [c1, c2]).2 = (feedChunks buf [c1 ++ c2]).2 ∧
    ((feedChunks buf [c1, c2]).1.map parse_message_up =
      (feedChunks buf [c1 ++ c2]).1.map parse_message_up) := by
  have key := splitNl_append (buf ++ c1) c2
  simp only [feedChunks, feedChunk, List.append_nil]
  rw [← List.append_assoc, key]
  simp

/-- C2 (counterexample): the splitlines-based loop of the stashed main
revision frames each received chunk on its own, so the record MSG,3 delivered
as the two chunks MS and G,3 with a closing newline decodes to two fragment
records instead of the one record obtained from the whole stream. -/
theorem framing_split_counterexample :
    mainFramerRecords ["MS".data, "G,3\n".data] 0 ≠
      mainFramerRecords ["MSG,3\n".data] 0 := by decide

/-- C3: one processed record appends a flight_positions row exactly when both
its latitude and longitude fields are non-blank: a record with a blank
latitude or longitude adds zero rows, and a record with both present adds
exactly one. -/
theorem position_insert_count (f : ParsedSt) (nowMs : Nat)
    (log : List PositionRow) :
    (insertPositions f nowMs log).length =
      log.length + (if f.lat = [] ∨ f.lon = [] then 0 else 1) := by
  unfold insertPositions
  split_ifs with h1 h2
  · exact absurd h1.1 (by tauto)
  · simp
  · simp
  · exact absurd (by tauto : f.lat ≠ [] ∧ f.lon ≠ []) h1

/-- C4: with an open session for the stripped callsign whose last-seen is
lastSeen, a record at nowIso keeps the same session id whenever the gap is at
most SESSION_TIMEOUT_SEC, the boundary gap of exactly 1200 seconds included,
and receives the fresh AUTOINCREMENT id, distinct from the open one, whenever
the gap is strictly larger. -/
theorem session_timeout_rule (csF hexF : Str) (nowIso lastSeen : Int)
    (sid : Nat) (db : DB)
    (hcs : pstrip csF ≠ [])
    (hlook : lookupSession db.activeSessions (pstrip csF) = some (sid, lastSeen))
    (hsid : sid < db.nextSessionId) :
    (nowIso - lastSeen ≤ SESSION_TIMEOUT_SEC →
      (get_or_create_session csF hexF nowIso db).1 = some sid) ∧
    (SESSION_TIMEOUT_SEC < nowIso - lastSeen →
      (get_or_create_session csF hexF nowIso db).1 = some db.nextSessionId ∧
        db.nextSessionId ≠ sid) := by
  simp only [get_or_create_session, if_neg hcs, hlook]
  constructor
  · intro h
    rw [if_neg (by exact not_lt.mpr h)]
  · intro h
    rw [if_pos h]
    exact ⟨rfl, Nat.ne_of_gt hsid⟩


/-- C4 (witness): at the exact timeout boundary of 1200 seconds the open
session id 1 is kept, and one second past it the fresh id 2 is assigned. -/
theorem session_timeout_rule_witness :
    (get_or_create_session csUAL hexUAL 1200 dbW).1 = some 1 ∧
    (get_or_create_session csUAL hexUAL 1201 dbW).1 = some 2 :=
  ⟨(session_timeout_rule csUAL hexUAL 1200 0 1 dbW (by decide)
      (by decide) (by decide)).1 (by decide),
   ((session_timeout_rule csUAL hexUAL 1201 0 1 dbW (by decide)
      (by decide) (by decide)).2 (by decide)).1⟩

/-- C5 (counterexample): the upstream ingestion path persists records whose
message type is not MSG: a decoded STA record with a non-blank callsign makes
insert_message mutate the store and leaves one adsb_messages row. -/

theorem persist_nonmsg_counterexample :
    (parse_message_up rawC5).mtype ≠ "MSG".data ∧
    (insert_message_up (parse_message_up rawC5) 0 emptyDB).1.messages.length = 1 ∧
    (insert_message_up (parse_message_up rawC5) 0 emptyDB).1 ≠ emptyDB := by decide

lemma get_or_create_flight_smessages (store : FlightsStore) (hexcode : Str) :
    (get_or_create_flight store hexcode).2.smessages = store.smessages := by
  unfold get_or_create_flight
  cases h : store.flights.find? (fun fr => decide (fr.2.hex = hexcode)) <;> simp

/-- C5 (amended): in the stashed main loop a non-blank record is persisted,
one smessages row appended, exactly when its decoded message type equals MSG;
a decoded record of any other type leaves the store untouched. -/
theorem main_loop_persists_iff_msg (store : FlightsStore) (raw : Str)
    (nowMs : Nat) (cAt : Int) (hnb : pstrip raw ≠ []) :
    ((mainProcessLine store raw nowMs cAt).smessages.length =
      store.smessages.length +
        (if (parse_message_st raw nowMs).mtype = "MSG".data then 1 else 0)) ∧
    ((parse_message_st raw nowMs).mtype ≠ "MSG".data →
      mainProcessLine store raw nowMs cAt = store) := by
  unfold mainProcessLine
  rw [if_neg hnb]
  by_cases hm : (parse_message_st raw nowMs).mtype = "MSG".data
  · constructor
    · rw [if_neg (by simp [hm])]
      simp [update_flight_fields_store, get_or_create_flight_smessages, hm]
    · intro h
      exact absurd hm h
  · constructor
    · rw [if_pos (by simp [hm])]
      simp [hm]
    · intro _
      rw [if_pos (by simp [hm])]

/-- C5 (witness): processing the example MSG record on the empty store appends
exactly one smessages row. -/
theorem main_loop_persists_iff_msg_witness :
    ((mainProcessLine storeEmpty rawC5b 0 0).smessages.length =
      storeEmpty.smessages.length +
        (if (parse_message_st rawC5b 0).mtype = "MSG".data then 1 else 0)) ∧
    ((parse_message_st rawC5b 0).mtype ≠ "MSG".data →
      mainProcessLine storeEmpty rawC5b 0 0 = storeEmpty) :=
  main_loop_persists_iff_msg storeEmpty rawC5b 0 0 (by decide)

lemma get_or_create_session_commit_cases (csF hexF : Str) (now : Int) (db : DB) :
    get_or_create_session csF hexF now db = (none, db, []) ∨
    ∃ sid db1 m, get_or_create_session csF hexF now db = (some sid, db1, [[m]]) ∧
      m.isSession = true := by
  unfold get_or_create_session
  by_cases hcs : pstrip csF = []
  · left
    rw [if_pos hcs]
  · right
    rw [if_neg hcs]
    cases hL : lookupSession db.activeSessions (pstrip csF) with
    | none => exact ⟨_, _, _, rfl, rfl⟩
    | some v =>
      rcases v with ⟨sid, lastSeen⟩
      dsimp only
      by_cases ht : now - lastSeen > SESSION_TIMEOUT_SEC
      · rw [if_pos ht]
        exact ⟨_, _, _, rfl, rfl⟩
      · rw [if_neg ht]
        exact ⟨_, _, _, rfl, rfl⟩

/-- C6 (amended): one processed record commits either nothing or exactly two
separate transactions: a first commit holding only the session insert or
touch, issued by the session helpers on their own connection, and a second
commit holding only the adsb_messages insert; no record commits its session
and message mutations as one unit. -/
theorem commit_structure (p : ParsedUp) (tsIso : Int) (db : DB) :
    (insert_message_up p tsIso db).2 = [] ∨
    ((insert_message_up p tsIso db).2.length = 2 ∧
     ((insert_message_up p tsIso db).2.getD 0 []).all Mutation.isSession = true ∧
     ((insert_message_up p tsIso db).2.getD 1 []).all
       Mutation.isMessageInsert = true) := by
  unfold insert_message_up
  by_cases hf : p.flight = "111111".data ∧ pstrip p.callsign = []
  · left
    rw [if_pos hf]
  · rw [if_neg hf]
    rcases get_or_create_session_commit_cases p.callsign p.hex tsIso db with
      h | ⟨sid, db1, m, h, hm⟩
    · left
      rw [h]
    · right
      rw [h]
      simp [List.all_cons, hm, Mutation.isMessageInsert]

/-- C6 (counterexample): a concrete record that opens a session produces two
nonempty commit units, the first containing only session mutations and the
second only the message insert, so an interruption between the two commits
persists the session row without its message row, refuting the
single-atomic-unit claim. -/
theorem atomicity_counterexample :
    ((insert_message_up (parse_message_up rawC6) 0 emptyDB).2.length = 2) ∧
    ((insert_message_up (parse_message_up rawC6) 0 emptyDB).2.getD 0 [] ≠ []) ∧
    ((insert_message_up (parse_message_up rawC6) 0 emptyDB).2.getD 0 []).all
      Mutation.isSession = true ∧
    ((insert_message_up (parse_message_up rawC6) 0 emptyDB).2.getD 1 [] ≠ []) ∧
    ((insert_message_up (parse_message_up rawC6) 0 emptyDB).2.getD 1 []).all
      Mutation.isMessageInsert = true := by decide

/-- C7 (counterexample): the upstream parse_message contradicts the claimed
wire positions at the example record: its callsign is not the field at
position 10, and its aircraft identifier is not the uppercased stripped field
at position 4. -/

theorem decoder_positions_counterexample :
    (parse_message_up rawC7).callsign ≠ (splitComma (pstrip rawC7)).getD 10 [] ∧
    (parse_message_up rawC7).hex ≠
      pupper (pstrip ((splitComma (pstrip rawC7)).getD 4 [])) ∧
    (parse_message_up rawC7).lat ≠ (splitComma (pstrip rawC7)).getD 14 [] := by
  decide

/-- C7 (amended): the stashed parse_message extracts exactly the documented
0-indexed positions from a comma-separated record of 22 comma-free fields:
0 message type, 1 transmission type, 4 identifier stripped and uppercased,
5 flight, 6 date, 7 time, 10 callsign, 11 altitude, 12 ground speed,
13 heading, 14 latitude, 15 longitude, 21 grounded flag. -/
theorem decoder_positions (fs : List Str) (nowMs : Nat)
    (hlen : fs.length = 22)
    (hnc : ∀ f ∈ fs, ',' ∉ f)
    (hws : pstrip (List.intercalate [','] fs) = List.intercalate [','] fs) :
    parse_message_st (List.intercalate [','] fs) nowMs =
      { mtype := fs.getD 0 [], ttype := fs.getD 1 [],
        hex := pupper (pstrip (fs.getD 4 [])), timestamp := nowMs,
        flight := fs.getD 5 [], date := fs.getD 6 [], time := fs.getD 7 [],
        callsign := fs.getD 10 [], alt := fs.getD 11 [],
        gspeed := fs.getD 12 [], heading := fs.getD 13 [],
        lat := fs.getD 14 [], lon := fs.getD 15 [],
        grounded := fs.getD 21 [] } := by
  have hne : fs ≠ [] := by
    intro h
    rw [h] at hlen
    simp at hlen
  simp only [parse_message_st, splitComma, padTo22]
  rw [hws, List.splitOn_intercalate fs ',' hnc hne, hlen]
  simp


/-- C7 (witness): decoding the example record extracts the documented
positions, the identifier uppercased. -/
theorem decoder_positions_witness :
    parse_message_st (List.intercalate [','] fs7) 5 =
      { mtype := "MSG".data, ttype := "3".data, hex := "A1B2C3".data,
        timestamp := 5, flight := "1".data, date := "2024/01/01".data,
        time := "00:00:00".data, callsign := "UAL123".data,
        alt := "35000".data, gspeed := "450".data, heading := "90".data,
        lat := "40.1".data, lon := "-75.2".data, grounded := "0".data } :=
  decoder_positions fs7 5 (by decide) (by decide) (by decide)

/-- C8 (amended): a record whose callsign strips to blank is assigned no
session, and insert_message then returns before any store write: the aircraft
state row is not updated and no position sample is appended either. -/
theorem blank_callsign_skips_all (q : ParsedSt) (tsIso : Int) (nowMs : Nat)
    (db : DB) (row : FlightRow) (log : List PositionRow)
    (hc : pstrip q.callsign = []) :
    insert_message_st q tsIso nowMs db row log = (db, row, log) ∧
    (get_or_create_session q.callsign q.hex tsIso db).1 = none := by
  have hsess : get_or_create_session q.callsign q.hex tsIso db =
      (none, db, []) := by
    simp only [get_or_create_session, if_pos hc]
  refine ⟨?_, by rw [hsess]⟩
  unfold insert_message_st
  by_cases hf : q.flight = "111111".data ∧ pstrip q.callsign = []
  · rw [if_pos hf]
  · rw [if_neg hf, hsess]


/-- C8 (counterexample): a record with blank callsign and both position fields
non-blank leaves the aircraft row and the position history completely
unchanged, refuting the part of the claim that such a record may still update
aircraft state and append a position sample. -/
theorem blank_callsign_counterexample :
    (parse_message_st raw8 0).lat ≠ [] ∧
    (parse_message_st raw8 0).lon ≠ [] ∧
    pstrip (parse_message_st raw8 0).callsign = [] ∧
    insert_message_st (parse_message_st raw8 0) 0 0 emptyDB
      (blankFlightRow hexUAL) [] =
      (emptyDB, blankFlightRow hexUAL, []) := by decide

/-- C8 (witness): the amended statement applied at the concrete blanked
record. -/
theorem blank_callsign_skips_all_witness :
    insert_message_st (parse_message_st raw8 5) 7 9 emptyDB
      (blankFlightRow hexUAL) [] =
      (emptyDB, blankFlightRow hexUAL, []) ∧
    (get_or_create_session (parse_message_st raw8 5).callsign
      (parse_message_st raw8 5).hex 7 emptyDB).1 = none :=
  blank_callsign_skips_all (parse_message_st raw8 5) 7 9 emptyDB
    (blankFlightRow hexUAL) [] (by decide)

/-- C9 (counterexample): when the peer closes the connection and recv yields
no data, the loop prints the disconnect line, breaks the inner loop only, and
reconnects at once: the sleep before the retry is 0 seconds, not the claimed
fixed 3-second delay. -/
theorem reconnect_delay_counterexample :
    (connect_and_listen_iter ConnEvent.peerClosed).retries = true ∧
    (connect_and_listen_iter ConnEvent.peerClosed).sleepSec = 0 ∧
    (connect_and_listen_iter ConnEvent.peerClosed).sleepSec ≠ 3 := by decide

/-- C9 (amended): every termination cause is logged and retried
unconditionally and the loop never returns normally after any finite event
sequence; an exception from connect or recv sleeps the fixed 3 seconds first,
while a peer close reconnects with no delay. -/
theorem reconnect_policy :
    (∀ e, (connect_and_listen_iter e).retries = true ∧
      (connect_and_listen_iter e).logs ≠ [] ∧
      (connect_and_listen_iter e).sleepSec =
        (match e with
         | ConnEvent.peerClosed => 0
         | ConnEvent.connectError _ => 3
         | ConnEvent.recvError _ => 3)) ∧
    (∀ es, connect_and_listen_returns es = false) := by
  constructor
  · intro e
    cases e <;> simp [connect_and_listen_iter]
  · intro es
    induction es with
    | nil => rfl
    | cons e es ih =>
      cases e <;> simp [connect_and_listen_returns, connect_and_listen_iter, ih]

/-- C10: a parsed record whose flight field is 111111 and whose callsign
strips to blank makes insert_message return at once: the store is unchanged
and no transaction is committed, so no session is created or touched and no
message row is inserted. -/
theorem filter_111111 (p : ParsedUp) (tsIso : Int) (db : DB)
    (hf : p.flight = "111111".data) (hc : pstrip p.callsign = []) :
    insert_message_up p tsIso db = (db, []) := by
  unfold insert_message_up
  rw [if_pos ⟨hf, hc⟩]

/-- C10 (witness): the filter applied to a concrete 111111 record with a
whitespace callsign field. -/
theorem filter_111111_witness :
    insert_message_up
      (parse_message_up raw10) 0 emptyDB = (emptyDB, []) :=
  filter_111111 _ 0 emptyDB (by decide) (by decide)

end SDR
